import Mathlib

/-
Verification of the SHT15 temperature/humidity sensor driver
(drivers/hwmon/sht15.c).  The driver state, the CRC-8 validator, the
command protocol with its staleness caches, the checksum-failure
recovery sequence and the calibration arithmetic are embedded as
executable Lean definitions translated from the C source; the theorems
below settle the specification claims about them.
-/

/- Errno values used by the driver; the C code returns their negations. -/
def eioErr : Int := 5
def eagainErr : Int := 11
def etimeErr : Int := 62

/- Jiffies per second.  The staleness timeout in sht15_update_status and
   sht15_update_measurements is HZ jiffies, i.e. one second. -/
def HZ : Nat := 100

/- Command bytes, from the defines at the top of sht15.c. -/
def SHT15_MEASURE_TEMP : Nat := 0x03
def SHT15_MEASURE_RH : Nat := 0x05
def SHT15_WRITE_STATUS : Nat := 0x06
def SHT15_READ_STATUS : Nat := 0x07
def SHT15_SOFT_RESET : Nat := 0x1E

/- Soft reset recovery time in milliseconds (SHT15_TSRST). -/
def SHT15_TSRST : Nat := 11

/- Status register bits. -/
def SHT15_STATUS_LOW_RESOLUTION : Nat := 0x01
def SHT15_STATUS_NO_OTP_RELOAD : Nat := 0x02
def SHT15_STATUS_HEATER : Nat := 0x04
def SHT15_STATUS_LOW_BATTERY : Nat := 0x40

/- enum sht15_state: the action the driver is currently doing. -/
inductive Sht15State where
  | READING_NOTHING
  | READING_TEMP
  | READING_HUMID
deriving DecidableEq

/- The fields of struct sht15_data that the protocol logic reads and
   writes.  val_temp and val_humid are uint16_t, val_status is u8,
   last_measurement and last_status are jiffies timestamps, supply_uV
   is an int (microvolts). -/
structure Sht15Data where
  val_temp : Nat
  val_humid : Nat
  val_status : Nat
  checksum_ok : Bool
  checksumming : Bool
  state : Sht15State
  measurements_valid : Bool
  status_valid : Bool
  last_measurement : Nat
  last_status : Nat
  supply_uV : Int
deriving DecidableEq

/- Table 9 from the datasheet: (vdd in microvolts, d1 offset) pairs,
   ascending in vdd. -/
def temppoints : List (Int × Int) :=
  [(2500000, -39400), (3000000, -39600), (3500000, -39700),
   (4000000, -39800), (5000000, -40100)]

def tpVdd (i : Nat) : Int := (temppoints.getD i (0, 0)).1

def tpD1 (i : Nat) : Int := (temppoints.getD i (0, 0)).2

/- sht15_reverse(): reverse the bits of a byte.
   C loop: for (c = 0, i = 0; i < 8; i++)
             c |= (!!(byte & (1 << i))) << (7 - i); -/
def sht15_reverse (byte : Nat) : Nat :=
  (List.range 8).foldl
    (fun c i => c ||| ((if byte &&& (1 <<< i) ≠ 0 then 1 else 0) <<< (7 - i))) 0

/- The CRC table from the datasheet, section 2.4 (sht15_crc8_table). -/
def sht15_crc8_table : List Nat :=
  [0, 49, 98, 83, 196, 245, 166, 151,
   185, 136, 219, 234, 125, 76, 31, 46,
   67, 114, 33, 16, 135, 182, 229, 212,
   250, 203, 152, 169, 62, 15, 92, 109,
   134, 183, 228, 213, 66, 115, 32, 17,
   63, 14, 93, 108, 251, 202, 153, 168,
   197, 244, 167, 150, 1, 48, 99, 82,
   124, 77, 30, 47, 184, 137, 218, 235,
   61, 12, 95, 110, 249, 200, 155, 170,
   132, 181, 230, 215, 64, 113, 34, 19,
   126, 79, 28, 45, 186, 139, 216, 233,
   199, 246, 165, 148, 3, 50, 97, 80,
   187, 138, 217, 232, 127, 78, 29, 44,
   2, 51, 96, 81, 198, 247, 164, 149,
   248, 201, 154, 171, 60, 13, 94, 111,
   65, 112, 35, 18, 133, 180, 231, 214,
   122, 75, 24, 41, 190, 143, 220, 237,
   195, 242, 161, 144, 7, 54, 101, 84,
   57, 8, 91, 106, 253, 204, 159, 174,
   128, 177, 226, 211, 68, 117, 38, 23,
   252, 205, 158, 175, 56, 9, 90, 107,
   69, 116, 39, 22, 129, 176, 227, 210,
   191, 142, 221, 236, 123, 74, 25, 40,
   6, 55, 100, 85, 194, 243, 160, 145,
   71, 118, 37, 20, 131, 178, 225, 208,
   254, 207, 156, 173, 58, 11, 88, 105,
   4, 53, 102, 87, 192, 241, 162, 147,
   189, 140, 223, 238, 121, 72, 27, 42,
   193, 240, 163, 146, 5, 52, 103, 86,
   120, 73, 26, 43, 188, 141, 222, 239,
   130, 179, 224, 209, 70, 119, 36, 21,
   59, 10, 89, 104, 255, 206, 157, 172]

def tableAt (i : Nat) : Nat := sht15_crc8_table.getD i 0

/- sht15_crc8(): table-driven CRC-8, seeded with the bit-reversal of the
   low nibble of the current status mirror; each data byte (a u8, hence
   the mod 256) is xor-ed into the running crc as the table index. -/
def sht15_crc8 (val_status : Nat) (value : List Nat) : Nat :=
  value.foldl (fun crc v => tableAt ((v % 256) ^^^ crc))
    (sht15_reverse (val_status &&& 0x0F))

/- sht15_calc_temp(): d1 interpolation loop.
   C loop: for (i = ARRAY_SIZE(temppoints) - 1; i > 0; i--)
             if (data->supply_uV > temppoints[i - 1].vdd) { d1 = ...; break; }
   The argument of the recursion is the loop index i; interpolation between
   points i-1 and i uses C truncating division (Int.tdiv). -/
def sht15_d1_loop (supply : Int) : Nat → Int
  | 0 => tpD1 0
  | j + 1 =>
    if tpVdd j < supply then
      Int.tdiv ((supply - tpVdd j) * (tpD1 (j + 1) - tpD1 j))
          (tpVdd (j + 1) - tpVdd j) + tpD1 j
    else
      sht15_d1_loop supply j

/- sht15_calc_temp(): raw code times the resolution-dependent slope d2
   (40 in low resolution, 10 in high resolution) plus the supply-voltage
   dependent offset d1. -/
def sht15_calc_temp (data : Sht15Data) : Int :=
  let d2 : Int := if data.val_status &&& SHT15_STATUS_LOW_RESOLUTION ≠ 0
    then 40 else 10
  (data.val_temp : Int) * d2 + sht15_d1_loop data.supply_uV 4

/- Observable device interactions emitted by the protocol functions.
   cmd c is a command byte sent through sht15_send_cmd (transmission
   start, command byte, ack check); statusByte s is the status register
   byte written inside sht15_send_status; sleepMs is msleep; waitMs is
   the wait_event_timeout bound in milliseconds; connReset is
   sht15_connection_reset. -/
inductive Ev where
  | cmd (c : Nat)
  | statusByte (s : Nat)
  | sleepMs (ms : Nat)
  | waitMs (ms : Nat)
  | connReset
deriving DecidableEq

/- Command bytes issued to the device, in order. -/
def cmdsOf (tr : List Ev) : List Nat :=
  tr.filterMap (fun e => match e with | Ev.cmd c => some c | _ => none)

/- Status register bytes written to the device, in order. -/
def statusWritesOf (tr : List Ev) : List Nat :=
  tr.filterMap (fun e => match e with | Ev.statusByte s => some s | _ => none)

def countCmd (tr : List Ev) (c : Nat) : Nat := (cmdsOf tr).count c

/- sht15_send_cmd(): transmission start, command byte, then
   sht15_wait_for_response, which on a NAK performs a connection reset
   and fails with -EIO.  The ack argument is the device response. -/
def sht15_send_cmd (ack : Bool) (cmd : Nat) : Int × List Ev :=
  if ack then (0, [Ev.cmd cmd]) else (-eioErr, [Ev.cmd cmd, Ev.connReset])

/- sht15_soft_reset(): send SHT15_SOFT_RESET; on failure return the
   error with the state untouched; on success msleep(SHT15_TSRST) and
   reset the status mirror to the hardware default 0. -/
def sht15_soft_reset (ack : Bool) (data : Sht15Data) :
    Int × Sht15Data × List Ev :=
  let r := sht15_send_cmd ack SHT15_SOFT_RESET
  if r.1 ≠ 0 then (r.1, data, r.2)
  else (0, {data with val_status := 0}, r.2 ++ [Ev.sleepMs SHT15_TSRST])

/- sht15_send_status(): send SHT15_WRITE_STATUS, then the status byte,
   then wait for the ack; only on full success is the mirror updated
   (unconditionally, with the byte just written). -/
def sht15_send_status (ackCmd ackByte : Bool) (data : Sht15Data)
    (status : Nat) : Int × Sht15Data × List Ev :=
  let r := sht15_send_cmd ackCmd SHT15_WRITE_STATUS
  if r.1 ≠ 0 then (r.1, data, r.2)
  else
    let tr2 := r.2 ++ [Ev.statusByte status]
    if ackByte then (0, {data with val_status := status}, tr2)
    else (-eioErr, data, tr2 ++ [Ev.connReset])

/- Device-side inputs of one sht15_update_status call: the current
   jiffies value, the status byte the device answers, the raw (still
   bit-reversed) checksum byte it appends, and the ack outcomes of the
   read command, the recovery soft-reset and the recovery write-status. -/
structure StatusEnv where
  jiffies : Nat
  statusByte : Nat
  devChecksum : Nat
  ackRead : Bool
  ackReset : Bool
  ackWriteCmd : Bool
  ackWriteByte : Bool
deriving DecidableEq

/- sht15_update_status(): refresh the status mirror if it is stale
   (time_after(jiffies, last_status + timeout)) or invalid; with
   checksumming on, validate the CRC over {READ_STATUS, status} seeded
   from the previous mirror, and on mismatch run the recovery sequence:
   previous_config = old mirror & 0x07, soft reset, write-status of
   previous_config when it is nonzero, then return -EAGAIN. -/
def sht15_update_status (e : StatusEnv) (d : Sht15Data) :
    Int × Sht15Data × List Ev :=
  if HZ + d.last_status < e.jiffies ∨ d.status_valid = false then
    let r1 := sht15_send_cmd e.ackRead SHT15_READ_STATUS
    if r1.1 ≠ 0 then (r1.1, d, r1.2)
    else
      let status := e.statusByte
      let d1 := if d.checksumming then
          {d with checksum_ok :=
            sht15_crc8 d.val_status [SHT15_READ_STATUS, status]
              == sht15_reverse e.devChecksum}
        else d
      if d1.checksumming && !d1.checksum_ok then
        let previous_config := d1.val_status &&& 0x07
        let r2 := sht15_soft_reset e.ackReset d1
        if r2.1 ≠ 0 then (r2.1, r2.2.1, r1.2 ++ r2.2.2)
        else if previous_config ≠ 0 then
          let r3 := sht15_send_status e.ackWriteCmd e.ackWriteByte r2.2.1
            previous_config
          if r3.1 ≠ 0 then (r3.1, r3.2.1, r1.2 ++ r2.2.2 ++ r3.2.2)
          else (-eagainErr, r3.2.1, r1.2 ++ r2.2.2 ++ r3.2.2)
        else (-eagainErr, r2.2.1, r1.2 ++ r2.2.2)
      else
        (0, {d1 with val_status := status, status_valid := true, last_status := e.jiffies}, r1.2)
  else (0, d, [])

/- Device-side inputs of one sht15_measurement call: the ack of the
   measurement command, whether the completion (interrupt or race-path
   proactive read) fires before the wait deadline, the 16-bit value the
   deferred read obtains, the raw checksum byte, and the ack outcomes
   of the recovery soft-reset and write-status. -/
structure MeasEnv where
  ackCmd : Bool
  completes : Bool
  val : Nat
  devChecksum : Nat
  ackReset : Bool
  ackWriteCmd : Bool
  ackWriteByte : Bool
deriving DecidableEq

/- sht15_bh_read_data(): the deferred read.  Reads the two value bytes,
   with checksumming validates the CRC over {command for the pending
   state, high byte, low byte}, stores the value in the cache slot
   selected by the pending state, sets the state back to
   READING_NOTHING and wakes the caller. -/
def sht15_bh_read_data (e : MeasEnv) (d : Sht15Data) : Sht15Data :=
  let val := e.val % 65536
  let d1 := if d.checksumming then
      let c0 := if d.state = Sht15State.READING_TEMP then SHT15_MEASURE_TEMP
        else SHT15_MEASURE_RH
      {d with checksum_ok :=
        sht15_crc8 d.val_status [c0, val / 256, val % 256]
          == sht15_reverse e.devChecksum}
    else d
  let d2 := match d1.state with
    | Sht15State.READING_TEMP => {d1 with val_temp := val}
    | Sht15State.READING_HUMID => {d1 with val_humid := val}
    | Sht15State.READING_NOTHING => d1
  {d2 with state := Sht15State.READING_NOTHING}

/- sht15_measurement(): send the measurement command, wait (bounded by
   timeout_msecs) for the deferred read to bring the state back to
   READING_NOTHING; on timeout disable the irq, reset the connection
   and return -ETIME; on completion run the same checksum-failure
   recovery as the status path. -/
def sht15_measurement (e : MeasEnv) (d : Sht15Data) (command : Nat)
    (timeout_msecs : Nat) : Int × Sht15Data × List Ev :=
  let r1 := sht15_send_cmd e.ackCmd command
  if r1.1 ≠ 0 then (r1.1, d, r1.2)
  else
    let t2 := r1.2 ++ [Ev.waitMs timeout_msecs]
    if e.completes = false then
      (-etimeErr, d, t2 ++ [Ev.connReset])
    else
      let d1 := sht15_bh_read_data e d
      if d1.checksumming && !d1.checksum_ok then
        let previous_config := d1.val_status &&& 0x07
        let r2 := sht15_soft_reset e.ackReset d1
        if r2.1 ≠ 0 then (r2.1, r2.2.1, t2 ++ r2.2.2)
        else if previous_config ≠ 0 then
          let r3 := sht15_send_status e.ackWriteCmd e.ackWriteByte r2.2.1
            previous_config
          if r3.1 ≠ 0 then (r3.1, r3.2.1, t2 ++ r2.2.2 ++ r3.2.2)
          else (-eagainErr, r3.2.1, t2 ++ r2.2.2 ++ r3.2.2)
        else (-eagainErr, r2.2.1, t2 ++ r2.2.2)
      else (0, d1, t2)

/- Device-side inputs of one sht15_update_measurements call. -/
structure MeasurementsEnv where
  jiffies : Nat
  humid : MeasEnv
  temp : MeasEnv
deriving DecidableEq

/- sht15_update_measurements(): when the measurement cache is stale or
   invalid, measure humidity (command SHT15_MEASURE_RH, 160 ms wait)
   and then temperature (command SHT15_MEASURE_TEMP, 400 ms wait),
   setting the state before each; only when both succeed mark the cache
   valid and timestamp it. -/
def sht15_update_measurements (e : MeasurementsEnv) (d : Sht15Data) :
    Int × Sht15Data × List Ev :=
  if HZ + d.last_measurement < e.jiffies ∨ d.measurements_valid = false then
    let dH := {d with state := Sht15State.READING_HUMID}
    let r1 := sht15_measurement e.humid dH SHT15_MEASURE_RH 160
    if r1.1 ≠ 0 then (r1.1, r1.2.1, r1.2.2)
    else
      let dT := {r1.2.1 with state := Sht15State.READING_TEMP}
      let r2 := sht15_measurement e.temp dT SHT15_MEASURE_TEMP 400
      if r2.1 ≠ 0 then (r2.1, r2.2.1, r1.2.2 ++ r2.2.2)
      else (0, {r2.2.1 with measurements_valid := true, last_measurement := e.jiffies}, r1.2.2 ++ r2.2.2)
  else (0, d, [])

/- The byte sht15_store_heater() builds before calling
   sht15_send_status: the mirror masked to its low three bits, with the
   heater bit then set or cleared by the requested value.  Clearing
   uses the u8 truncation of the C expression status &= ~0x04, namely
   the mask 0xFB. -/
def heaterStatusByte (val_status : Nat) (value : Int) : Nat :=
  let status := val_status &&& 0x07
  if value ≠ 0 then status ||| SHT15_STATUS_HEATER
  else status &&& 0xFB

/- sht15_store_heater(): read-modify-write of the heater bit from the
   current mirror, with no prior refresh from the device. -/
def sht15_store_heater (ackCmd ackByte : Bool) (d : Sht15Data)
    (value : Int) : Int × Sht15Data × List Ev :=
  sht15_send_status ackCmd ackByte d (heaterStatusByte d.val_status value)

/- Spec-side reference validator for claim C9: the table-driven CRC of
   the specification, seeded with the bit-reversal of the given seed
   nibble and consuming the bytes in order. -/
def referenceCrc8 (seedNibble : Nat) (bytes : List Nat) : Nat :=
  bytes.foldl (fun crc v => tableAt ((v % 256) ^^^ crc))
    (sht15_reverse seedNibble)

/- Session used by the claim C1 calculation: supply 3300000 uV, status
   0 (high resolution), raw temperature code 800. -/
def c1Data : Sht15Data :=
  ⟨800, 0, 0, true, false, Sht15State.READING_NOTHING, false, false,
    0, 0, 3300000⟩

/- Linear interpolation of the d1 offset on the table segment between
   points j and j + 1, with C truncating division. -/
def d1Interp (supply : Int) (j : Nat) : Int :=
  Int.tdiv ((supply - tpVdd j) * (tpD1 (j + 1) - tpD1 j))
    (tpVdd (j + 1) - tpVdd j) + tpD1 j

/- Spec-side d1 lookup for claim C7: at or below the lowest table
   voltage use the lowest offset without interpolation; otherwise
   interpolate on the segment of the two bracketing table points (the
   last segment also serves voltages above the table, where the code
   extrapolates it). -/
def d1SpecLookup (supply : Int) : Int :=
  if supply ≤ tpVdd 0 then tpD1 0
  else if supply ≤ tpVdd 1 then d1Interp supply 0
  else if supply ≤ tpVdd 2 then d1Interp supply 1
  else if supply ≤ tpVdd 3 then d1Interp supply 2
  else d1Interp supply 3

/- Session used by the claim C3 counterexample: a pending humidity
   measurement with checksumming on. -/
def c3Data : Sht15Data :=
  ⟨0, 0, 0, true, true, Sht15State.READING_HUMID, false, false,
    0, 0, 3300000⟩

/- Concrete inputs exercising the claim C4 recovery path: stale valid
   mirror 5, corrupted read 0x12, checksum byte 0 (mismatch), all
   commands acknowledged. -/
def c4Data : Sht15Data :=
  ⟨0, 0, 5, true, true, Sht15State.READING_NOTHING, false, true,
    0, 0, 3300000⟩

def c4Env : StatusEnv := ⟨200, 0x12, 0, true, true, true, true⟩

/- Concrete inputs for the claim C2 witness: previous mirrors 5 (low
   resolution + heater), corrupted exchanges with checksum byte 0. -/
def c2Data : Sht15Data :=
  ⟨0, 0, 5, true, true, Sht15State.READING_NOTHING, false, true,
    0, 0, 3300000⟩

def c2Env : StatusEnv := ⟨200, 0x12, 0, true, true, true, true⟩

def c2MeasData : Sht15Data :=
  ⟨0, 0, 5, true, true, Sht15State.READING_HUMID, false, false,
    0, 0, 3300000⟩

def c2MeasEnv : MeasEnv := ⟨true, true, 0x1234, 0, true, true, true⟩

/- Concrete sessions and environments for the claim C5 witness: fresh
   reads at jiffies 50 inside the window, stale reads at jiffies 200
   past the one-second window, checksumming off. -/
def c5Fresh : Sht15Data :=
  ⟨0, 0, 0, true, false, Sht15State.READING_NOTHING, true, true,
    0, 0, 3300000⟩

def c5Stale : Sht15Data :=
  ⟨0, 0, 0, true, false, Sht15State.READING_NOTHING, false, false,
    0, 0, 3300000⟩

def c5FreshEnv : StatusEnv := ⟨50, 0x12, 0, true, true, true, true⟩

def c5StaleEnv : StatusEnv := ⟨200, 0x12, 0, true, true, true, true⟩

def c5FreshMEnv : MeasurementsEnv :=
  ⟨50, ⟨true, true, 0x1234, 0, true, true, true⟩,
    ⟨true, true, 0x2345, 0, true, true, true⟩⟩

def c5StaleMEnv : MeasurementsEnv :=
  ⟨200, ⟨true, true, 0x1234, 0, true, true, true⟩,
    ⟨true, true, 0x2345, 0, true, true, true⟩⟩

/- Concrete inputs for the claim C8 witness: an invalid cache and three
   environments exercising both-succeed, humidity-timeout and
   temperature-timeout runs, with checksumming off. -/
def c8Data : Sht15Data :=
  ⟨0, 0, 0, true, false, Sht15State.READING_NOTHING, false, true,
    0, 0, 3300000⟩

def c8EnvOK : MeasurementsEnv :=
  ⟨200, ⟨true, true, 0x1234, 0, true, true, true⟩,
    ⟨true, true, 0x2345, 0, true, true, true⟩⟩

def c8EnvHumidTimeout : MeasurementsEnv :=
  ⟨200, ⟨true, false, 0, 0, true, true, true⟩,
    ⟨true, true, 0, 0, true, true, true⟩⟩

def c8EnvTempTimeout : MeasurementsEnv :=
  ⟨200, ⟨true, true, 0x1234, 0, true, true, true⟩,
    ⟨true, false, 0, 0, true, true, true⟩⟩

set_option maxRecDepth 4096 in
theorem sht15_reverse_lt (x : Nat) : sht15_reverse x < 256 := by
  unfold sht15_reverse
  have h : List.range 8 = [0, 1, 2, 3, 4, 5, 6, 7] := rfl
  rw [h]
  simp only [List.foldl]
  split_ifs <;> decide

set_option maxRecDepth 10000 in
theorem sht15_reverse_involution :
    ∀ b, b < 256 → sht15_reverse (sht15_reverse b) = b := by decide

set_option maxRecDepth 10000 in
theorem tableAt_lt (i : Nat) : tableAt i < 256 := by
  by_cases h : i < 256
  · exact (by decide : ∀ j, j < 256 → tableAt j < 256) i h
  · unfold tableAt
    rw [List.getD_eq_default]
    · decide
    · have hl : sht15_crc8_table.length = 256 := rfl
      omega

theorem crc8_foldl_lt (bytes : List Nat) (crc : Nat) (h : crc < 256) :
    bytes.foldl (fun crc v => tableAt ((v % 256) ^^^ crc)) crc < 256 := by
  induction bytes generalizing crc with
  | nil => exact h
  | cons b bs ih => exact ih _ (tableAt_lt _)

theorem sht15_crc8_lt (s : Nat) (bytes : List Nat) :
    sht15_crc8 s bytes < 256 := by
  unfold sht15_crc8
  exact crc8_foldl_lt _ _ (sht15_reverse_lt _)

/-- Claim C9: for every seed and byte sequence the CRC-8 validator is a
function of its inputs (hence deterministic) and coincides with the
reference table-driven definition seeded with the bit-reversal of the
seed nibble; the byte-reversal is an involution on bytes, so reversing
a computed checksum twice (as the driver does with the transmitted
checksum byte) gives back the original checksum. -/
theorem C9_crc8_reference_and_roundtrip (status : Nat) (bytes : List Nat) :
    sht15_crc8 status bytes = referenceCrc8 (status &&& 0x0F) bytes ∧
    sht15_reverse (sht15_reverse (sht15_crc8 status bytes))
      = sht15_crc8 status bytes ∧
    (∀ b, b < 256 → sht15_reverse (sht15_reverse b) = b) :=
  ⟨rfl, sht15_reverse_involution _ (sht15_crc8_lt _ _),
    sht15_reverse_involution⟩

/-- Witness for claim C9 at a concrete seed, byte list and byte. -/
theorem C9_crc8_witness :
    sht15_crc8 5 [7, 0x33] = referenceCrc8 (5 &&& 0x0F) [7, 0x33] ∧
    (183 : Nat) < 256 ∧ sht15_reverse (sht15_reverse 183) = 183 :=
  ⟨(C9_crc8_reference_and_roundtrip 5 [7, 0x33]).1, by decide,
   (C9_crc8_reference_and_roundtrip 5 [7, 0x33]).2.2 183 (by decide)⟩

/-- Claim C1 counterexample: with supply 3300000 uV the interpolated
offset the code computes is -39660, not -39620, and the temperature for
raw code 800 at high resolution is -31660 milli-degrees, not 7380; the
conjunction claimed by the spec is false. -/
theorem C1_counterexample :
    ¬ (sht15_d1_loop 3300000 4 = -39620 ∧ sht15_calc_temp c1Data = 7380) := by
  decide

/-- Claim C1 (amended): for supply 3300000 uV the offset interpolated
between the 3.0 V and 3.5 V table points is -39660, and the temperature
for raw code 800 at high resolution (d2 = 10) is 800 * 10 + (-39660)
= -31660 milli-degrees. -/
theorem C1_calc_temp_example :
    sht15_d1_loop 3300000 4 = -39660 ∧ sht15_calc_temp c1Data = -31660 := by
  decide

/-- Claim C6: sht15_soft_reset sends the soft-reset command, sleeps for
the 11 ms minimum reset recovery time and sets the status mirror to the
all-zero post-reset default; when the command is not acknowledged it
returns -EIO and leaves the whole driver state unchanged. -/
theorem C6_soft_reset (d : Sht15Data) :
    sht15_soft_reset true d =
      (0, {d with val_status := 0},
        [Ev.cmd SHT15_SOFT_RESET, Ev.sleepMs SHT15_TSRST]) ∧
    sht15_soft_reset false d =
      (-eioErr, d, [Ev.cmd SHT15_SOFT_RESET, Ev.connReset]) :=
  ⟨rfl, rfl⟩

/-- Claim C7: the temperature offset uses the lowest table entry
(-39400) without interpolation for supply at or below 2500000 uV and
otherwise linearly interpolates the offset on the bracketing segment of
the ascending table, and sht15_calc_temp is the raw code times the
resolution slope plus that offset. -/
theorem C7_d1_bracketing (supply : Int) (d : Sht15Data) :
    sht15_d1_loop supply 4 = d1SpecLookup supply ∧
    sht15_calc_temp d = (d.val_temp : Int) *
      (if d.val_status &&& SHT15_STATUS_LOW_RESOLUTION ≠ 0 then 40 else 10) +
      d1SpecLookup d.supply_uV := by
  have key : ∀ s : Int, sht15_d1_loop s 4 = d1SpecLookup s := by
    intro s
    show (if tpVdd 3 < s then d1Interp s 3
      else if tpVdd 2 < s then d1Interp s 2
      else if tpVdd 1 < s then d1Interp s 1
      else if tpVdd 0 < s then d1Interp s 0
      else tpD1 0) = d1SpecLookup s
    unfold d1SpecLookup
    have e0 : tpVdd 0 = 2500000 := rfl
    have e1 : tpVdd 1 = 3000000 := rfl
    have e2 : tpVdd 2 = 3500000 := rfl
    have e3 : tpVdd 3 = 4000000 := rfl
    rw [e0, e1, e2, e3]
    split_ifs <;> first | rfl | (exfalso; omega)
  exact ⟨key supply, by unfold sht15_calc_temp; rw [key d.supply_uV]⟩

/-- Claim C3 counterexample: a humidity measurement whose completion
never fires (and whose race-path read never runs) returns -ETIME, but
the pending state afterwards is still READING_HUMID, not the claimed
READING_NOTHING. -/
theorem C3_counterexample :
    (sht15_measurement ⟨true, false, 0, 0, true, true, true⟩ c3Data
      SHT15_MEASURE_RH 160).1 = -etimeErr ∧
    (sht15_measurement ⟨true, false, 0, 0, true, true, true⟩ c3Data
      SHT15_MEASURE_RH 160).2.1.state ≠ Sht15State.READING_NOTHING := by
  decide

/-- Claim C3 (amended): when the completion never fires and no race-path
read runs, the measurement call returns -ETIME after its bounded wait
and leaves the driver data unchanged, so the pending state keeps its
in-flight value rather than being reset to idle; the next refresh is
nevertheless not blocked, since sht15_update_measurements sets the
pending state itself before issuing its measurement command. -/
theorem C3_timeout (v dc : Nat) (rb wc wb : Bool) (d : Sht15Data)
    (cmd t j : Nat) :
    sht15_measurement ⟨true, false, v, dc, rb, wc, wb⟩ d cmd t =
      (-etimeErr, d, [Ev.cmd cmd, Ev.waitMs t, Ev.connReset]) ∧
    (sht15_update_measurements
        ⟨j, ⟨true, false, v, dc, rb, wc, wb⟩, ⟨true, false, v, dc, rb, wc, wb⟩⟩
        {d with measurements_valid := false}).2.2 =
      [Ev.cmd SHT15_MEASURE_RH, Ev.waitMs 160, Ev.connReset] := by
  constructor
  · rfl
  · unfold sht15_update_measurements
    rw [if_pos (Or.inr rfl)]
    rfl

/- Bit facts about the byte built by sht15_store_heater, for the low
   three bits of the mirror. -/
theorem heaterMaskBits :
    ∀ u, u < 8 →
      (u ||| 4) &&& 1 = u &&& 1 ∧ (u ||| 4) &&& 2 = u &&& 2 ∧
      (u ||| 4) &&& 4 = 4 ∧ (u ||| 4) < 8 ∧
      (u &&& 0xFB) &&& 1 = u &&& 1 ∧ (u &&& 0xFB) &&& 2 = u &&& 2 ∧
      (u &&& 0xFB) &&& 4 = 0 ∧ (u &&& 0xFB) < 8 := by
  decide

theorem and7_and1 (v : Nat) : (v &&& 7) &&& 1 = v &&& 1 := by
  rw [Nat.and_assoc, (by decide : (7 : Nat) &&& 1 = 1)]

theorem and7_and2 (v : Nat) : (v &&& 7) &&& 2 = v &&& 2 := by
  rw [Nat.and_assoc, (by decide : (7 : Nat) &&& 2 = 2)]

/-- Claim C10: the byte written by a heater update is the mirror masked
to its low three bits with the heater bit then set or cleared as
requested: the low-resolution and no-OTP-reload bits of the mirror are
preserved, every bit above the low three (battery-low included) is
written as zero, no read-status command is issued beforehand, and on
success the mirror becomes the written byte. -/
theorem C10_store_heater (d : Sht15Data) (value : Int)
    (ackCmd ackByte : Bool) :
    heaterStatusByte d.val_status value &&& SHT15_STATUS_LOW_RESOLUTION
      = d.val_status &&& SHT15_STATUS_LOW_RESOLUTION ∧
    heaterStatusByte d.val_status value &&& SHT15_STATUS_NO_OTP_RELOAD
      = d.val_status &&& SHT15_STATUS_NO_OTP_RELOAD ∧
    heaterStatusByte d.val_status value &&& SHT15_STATUS_HEATER
      = (if value ≠ 0 then SHT15_STATUS_HEATER else 0) ∧
    heaterStatusByte d.val_status value < 8 ∧
    countCmd (sht15_store_heater ackCmd ackByte d value).2.2
      SHT15_READ_STATUS = 0 ∧
    sht15_store_heater true true d value =
      (0, {d with val_status := heaterStatusByte d.val_status value},
        [Ev.cmd SHT15_WRITE_STATUS,
         Ev.statusByte (heaterStatusByte d.val_status value)]) := by
  have h7 : d.val_status &&& 7 < 8 := Nat.lt_succ_of_le Nat.and_le_right
  have hb := heaterMaskBits (d.val_status &&& 7) h7
  refine ⟨?_, ?_, ?_, ?_, ?_, rfl⟩
  · by_cases hv : value ≠ 0
    · simp only [heaterStatusByte, SHT15_STATUS_LOW_RESOLUTION,
        SHT15_STATUS_HEATER, if_pos hv]
      rw [hb.1, and7_and1]
    · simp only [heaterStatusByte, SHT15_STATUS_LOW_RESOLUTION, if_neg hv]
      rw [hb.2.2.2.2.1, and7_and1]
  · by_cases hv : value ≠ 0
    · simp only [heaterStatusByte, SHT15_STATUS_NO_OTP_RELOAD,
        SHT15_STATUS_HEATER, if_pos hv]
      rw [hb.2.1, and7_and2]
    · simp only [heaterStatusByte, SHT15_STATUS_NO_OTP_RELOAD, if_neg hv]
      rw [hb.2.2.2.2.2.1, and7_and2]
  · by_cases hv : value ≠ 0
    · simp only [heaterStatusByte, SHT15_STATUS_HEATER, if_pos hv, if_pos hv]
      exact hb.2.2.1
    · simp only [heaterStatusByte, SHT15_STATUS_HEATER, if_neg hv, if_neg hv]
      exact hb.2.2.2.2.2.2.1
  · by_cases hv : value ≠ 0
    · simp only [heaterStatusByte, SHT15_STATUS_HEATER, if_pos hv]
      exact hb.2.2.2.1
    · simp only [heaterStatusByte, if_neg hv]
      exact hb.2.2.2.2.2.2.2
  · cases ackCmd <;> cases ackByte <;> rfl

/- The deferred read never touches the status mirror or the
   checksumming flag, and always returns the state to idle. -/
theorem bh_fields (m : MeasEnv) (d : Sht15Data) :
    (sht15_bh_read_data m d).val_status = d.val_status ∧
    (sht15_bh_read_data m d).checksumming = d.checksumming ∧
    (sht15_bh_read_data m d).state = Sht15State.READING_NOTHING ∧
    (sht15_bh_read_data m d).measurements_valid = d.measurements_valid ∧
    (sht15_bh_read_data m d).last_measurement = d.last_measurement := by
  unfold sht15_bh_read_data
  cases hs : d.state <;> cases hc : d.checksumming <;> simp [hs, hc]

/- A measurement whose command is acknowledged, whose completion fires
   and whose CRC guard does not trip returns the deferred-read result. -/
theorem measurement_ok (m : MeasEnv) (d : Sht15Data) (c t : Nat)
    (hack : m.ackCmd = true) (hcomp : m.completes = true)
    (hok : ((sht15_bh_read_data m d).checksumming
      && !(sht15_bh_read_data m d).checksum_ok) = false) :
    sht15_measurement m d c t =
      (0, sht15_bh_read_data m d, [Ev.cmd c, Ev.waitMs t]) := by
  obtain ⟨a, cp, v, dc, rb, wc, wb⟩ := m
  simp only at hack hcomp hok
  subst hack; subst hcomp
  unfold sht15_measurement sht15_send_cmd
  simp [hok]

/- A status refresh whose read command is acknowledged and whose CRC
   guard does not trip stores the received byte and revalidates. -/
theorem update_status_ok (e : StatusEnv) (d : Sht15Data)
    (hstale : HZ + d.last_status < e.jiffies ∨ d.status_valid = false)
    (hR : e.ackRead = true)
    (hguard : (d.checksumming && !(sht15_crc8 d.val_status
      [SHT15_READ_STATUS, e.statusByte] == sht15_reverse e.devChecksum))
      = false) :
    sht15_update_status e d =
      (0, {(if d.checksumming then
              {d with checksum_ok := sht15_crc8 d.val_status [SHT15_READ_STATUS, e.statusByte] == sht15_reverse e.devChecksum}
            else d) with
            val_status := e.statusByte, status_valid := true,
            last_status := e.jiffies},
        [Ev.cmd SHT15_READ_STATUS]) := by
  obtain ⟨j, sb, dc, ar, arst, awc, awb⟩ := e
  simp only at hstale hR hguard ⊢
  subst hR
  unfold sht15_update_status sht15_send_cmd
  rw [if_pos hstale]
  cases hc : d.checksumming <;> simp [hc] at hguard ⊢ <;> simp [hguard]

/-- Claim C4: a status read with checksumming on whose computed CRC does
not match the device checksum performs exactly one soft reset, issues a
write-status exactly when the masked previous configuration bits are
nonzero, returns -EAGAIN when the recovery succeeds, and neither stores
the corrupted status byte in the mirror nor marks the status valid. -/
theorem C4_status_crc_recovery (e : StatusEnv) (d : Sht15Data)
    (hstale : HZ + d.last_status < e.jiffies ∨ d.status_valid = false)
    (hchk : d.checksumming = true)
    (hmm : (sht15_crc8 d.val_status [SHT15_READ_STATUS, e.statusByte]
      == sht15_reverse e.devChecksum) = false)
    (hR : e.ackRead = true) (hRst : e.ackReset = true)
    (hWC : e.ackWriteCmd = true) (hWB : e.ackWriteByte = true) :
    countCmd (sht15_update_status e d).2.2 SHT15_SOFT_RESET = 1 ∧
    countCmd (sht15_update_status e d).2.2 SHT15_WRITE_STATUS
      = (if d.val_status &&& 0x07 ≠ 0 then 1 else 0) ∧
    statusWritesOf (sht15_update_status e d).2.2
      = (if d.val_status &&& 0x07 ≠ 0 then [d.val_status &&& 0x07] else []) ∧
    (sht15_update_status e d).1 = -eagainErr ∧
    (sht15_update_status e d).2.1.val_status
      = (if d.val_status &&& 0x07 ≠ 0 then d.val_status &&& 0x07 else 0) ∧
    (sht15_update_status e d).2.1.status_valid = d.status_valid ∧
    (sht15_update_status e d).2.1.last_status = d.last_status := by
  obtain ⟨j, sb, dc, ar, arst, awc, awb⟩ := e
  obtain ⟨vt, vh, vs, cok, cs, st, mv, sv, lm, ls, su⟩ := d
  simp only at hchk hmm hR hRst hWC hWB hstale ⊢
  subst hchk hR hRst hWC hWB
  unfold sht15_update_status
  rw [if_pos hstale]
  simp only [sht15_send_cmd, sht15_soft_reset, sht15_send_status, hmm]
  by_cases hp : vs &&& 0x07 = 0
  · simp [hp, countCmd, cmdsOf, statusWritesOf, SHT15_SOFT_RESET,
      SHT15_WRITE_STATUS, SHT15_READ_STATUS]
  · simp [hp, countCmd, cmdsOf, statusWritesOf, SHT15_SOFT_RESET,
      SHT15_WRITE_STATUS, SHT15_READ_STATUS]

/-- Witness for claim C4 at the concrete recovery run. -/
theorem C4_status_crc_recovery_witness :
    ((HZ + c4Data.last_status < c4Env.jiffies ∨ c4Data.status_valid = false) ∧
      c4Data.checksumming = true ∧
      (sht15_crc8 c4Data.val_status [SHT15_READ_STATUS, c4Env.statusByte]
        == sht15_reverse c4Env.devChecksum) = false) ∧
    countCmd (sht15_update_status c4Env c4Data).2.2 SHT15_SOFT_RESET = 1 ∧
    (sht15_update_status c4Env c4Data).1 = -eagainErr :=
  ⟨⟨by decide, by decide, by decide⟩,
   (C4_status_crc_recovery c4Env c4Data (by decide) (by decide) (by decide)
     (by decide) (by decide) (by decide) (by decide)).1,
   (C4_status_crc_recovery c4Env c4Data (by decide) (by decide) (by decide)
     (by decide) (by decide) (by decide) (by decide)).2.2.2.1⟩

theorem and7_and4 (v : Nat) : (v &&& 7) &&& 4 = v &&& 4 := by
  rw [Nat.and_assoc, (by decide : (7 : Nat) &&& 4 = 4)]

/-- Claim C2 counterexample: a checksum-failure recovery on a status
read whose previous mirror is exactly the heater bit (0x04) reissues
the configuration byte 4, i.e. the heater bit is kept by the 0x07 mask
and restored by the recovery write, contradicting the claim that it is
dropped and never restored. -/
theorem C2_counterexample :
    statusWritesOf (sht15_update_status ⟨200, 0x12, 0, true, true, true, true⟩
      ⟨0, 0, 4, true, true, Sht15State.READING_NOTHING, false, true,
        0, 0, 3300000⟩).2.2 = [4] ∧
    4 &&& SHT15_STATUS_HEATER ≠ 0 := by
  decide

/-- Claim C2 (amended): in both checksum-failure recovery paths (status
read and measurement) the configuration byte reissued through
write-status is the previous mirror masked to its low three bits
(0x07), issued exactly when that masked byte is nonzero; the mask
preserves the low-resolution, no-OTP-reload and heater bits of the
previous mirror, and only the bits above the low three (reserved and
battery-low) are dropped. -/
theorem C2_recovery_mask (e : StatusEnv) (d : Sht15Data)
    (m : MeasEnv) (dm : Sht15Data) (c t : Nat)
    (hstale : HZ + d.last_status < e.jiffies ∨ d.status_valid = false)
    (hchk : d.checksumming = true)
    (hmm : (sht15_crc8 d.val_status [SHT15_READ_STATUS, e.statusByte]
      == sht15_reverse e.devChecksum) = false)
    (hR : e.ackRead = true) (hRst : e.ackReset = true)
    (hWC : e.ackWriteCmd = true) (hWB : e.ackWriteByte = true)
    (hmA : m.ackCmd = true) (hmC : m.completes = true)
    (hmF : ((sht15_bh_read_data m dm).checksumming
      && !(sht15_bh_read_data m dm).checksum_ok) = true)
    (hmRst : m.ackReset = true) (hmWC : m.ackWriteCmd = true)
    (hmWB : m.ackWriteByte = true) :
    statusWritesOf (sht15_update_status e d).2.2
      = (if d.val_status &&& 0x07 ≠ 0 then [d.val_status &&& 0x07] else []) ∧
    statusWritesOf (sht15_measurement m dm c t).2.2
      = (if dm.val_status &&& 0x07 ≠ 0 then [dm.val_status &&& 0x07] else []) ∧
    (d.val_status &&& 0x07) &&& SHT15_STATUS_HEATER
      = d.val_status &&& SHT15_STATUS_HEATER ∧
    (d.val_status &&& 0x07) &&& SHT15_STATUS_LOW_RESOLUTION
      = d.val_status &&& SHT15_STATUS_LOW_RESOLUTION ∧
    (d.val_status &&& 0x07) &&& SHT15_STATUS_NO_OTP_RELOAD
      = d.val_status &&& SHT15_STATUS_NO_OTP_RELOAD ∧
    d.val_status &&& 0x07 < 8 ∧ dm.val_status &&& 0x07 < 8 := by
  refine ⟨?_, ?_, and7_and4 _, and7_and1 _, and7_and2 _,
    Nat.lt_succ_of_le Nat.and_le_right, Nat.lt_succ_of_le Nat.and_le_right⟩
  · obtain ⟨j, sb, dc, ar, arst, awc, awb⟩ := e
    obtain ⟨vt, vh, vs, cok, cs, st, mv, sv, lm, ls, su⟩ := d
    simp only at hchk hmm hR hRst hWC hWB hstale ⊢
    subst hchk hR hRst hWC hWB
    unfold sht15_update_status
    rw [if_pos hstale]
    simp only [sht15_send_cmd, sht15_soft_reset, sht15_send_status, hmm]
    by_cases hp : vs &&& 0x07 = 0
    · simp [hp, statusWritesOf]
    · simp [hp, statusWritesOf]
  · have hbv := (bh_fields m dm).1
    obtain ⟨a, cp, v, dc, rb, wc, wb⟩ := m
    simp only at hmA hmC hmF hmRst hmWC hmWB hbv ⊢
    subst hmA hmC hmRst hmWC hmWB
    unfold sht15_measurement sht15_send_cmd
    simp only [hmF, hbv, sht15_soft_reset, sht15_send_cmd, sht15_send_status]
    by_cases hp : dm.val_status &&& 0x07 = 0
    · simp [hp, statusWritesOf]
    · simp [hp, statusWritesOf]

/-- Witness for the amended claim C2 at concrete recovery runs on both
paths: the byte reissued is 5 &&& 0x07 = 5, heater bit included. -/
theorem C2_recovery_mask_witness :
    (c2Data.checksumming = true ∧
      ((sht15_bh_read_data c2MeasEnv c2MeasData).checksumming
        && !(sht15_bh_read_data c2MeasEnv c2MeasData).checksum_ok) = true) ∧
    statusWritesOf (sht15_update_status c2Env c2Data).2.2 = [5] ∧
    statusWritesOf (sht15_measurement c2MeasEnv c2MeasData
      SHT15_MEASURE_RH 160).2.2 = [5] := by
  have h := C2_recovery_mask c2Env c2Data c2MeasEnv c2MeasData
    SHT15_MEASURE_RH 160 (by decide) (by decide) (by decide) (by decide)
    (by decide) (by decide) (by decide) (by decide) (by decide) (by decide)
    (by decide) (by decide) (by decide)
  refine ⟨⟨by decide, by decide⟩, ?_, ?_⟩
  · rw [h.1]; decide
  · rw [h.2.1]; decide

/- A measurement whose command is acknowledged but whose completion
   never fires returns -ETIME with the data unchanged after a
   connection reset. -/
theorem measurement_timeout (m : MeasEnv) (d : Sht15Data) (c t : Nat)
    (hack : m.ackCmd = true) (hcomp : m.completes = false) :
    sht15_measurement m d c t =
      (-etimeErr, d, [Ev.cmd c, Ev.waitMs t, Ev.connReset]) := by
  obtain ⟨a, cp, v, dc, rb, wc, wb⟩ := m
  simp only at hack hcomp
  subst hack; subst hcomp
  rfl

/-- Claim C5: within the one-second staleness window with a valid cache
both access paths issue zero device commands and return the cached
data unchanged; when the window has elapsed or the validity flag is
false, a successful access performs exactly one refresh cycle: a single
read-status command on the status path, and a single humidity plus a
single temperature measurement command on the measurement path. -/
theorem C5_staleness (e : StatusEnv) (m : MeasurementsEnv)
    (d dm : Sht15Data) :
    (¬ (HZ + d.last_status < e.jiffies) → d.status_valid = true →
      sht15_update_status e d = (0, d, [])) ∧
    ((HZ + d.last_status < e.jiffies ∨ d.status_valid = false) →
      e.ackRead = true →
      (d.checksumming && !(sht15_crc8 d.val_status [SHT15_READ_STATUS, e.statusByte] == sht15_reverse e.devChecksum)) = false →
      cmdsOf (sht15_update_status e d).2.2 = [SHT15_READ_STATUS] ∧
      (sht15_update_status e d).1 = 0 ∧
      (sht15_update_status e d).2.1.val_status = e.statusByte ∧
      (sht15_update_status e d).2.1.status_valid = true ∧
      (sht15_update_status e d).2.1.last_status = e.jiffies) ∧
    (¬ (HZ + dm.last_measurement < m.jiffies) → dm.measurements_valid = true →
      sht15_update_measurements m dm = (0, dm, [])) ∧
    ((HZ + dm.last_measurement < m.jiffies ∨ dm.measurements_valid = false) →
      m.humid.ackCmd = true → m.humid.completes = true →
      ((sht15_bh_read_data m.humid {dm with state := Sht15State.READING_HUMID}).checksumming && !(sht15_bh_read_data m.humid {dm with state := Sht15State.READING_HUMID}).checksum_ok) = false →
      m.temp.ackCmd = true → m.temp.completes = true →
      ((sht15_bh_read_data m.temp {sht15_bh_read_data m.humid {dm with state := Sht15State.READING_HUMID} with state := Sht15State.READING_TEMP}).checksumming && !(sht15_bh_read_data m.temp {sht15_bh_read_data m.humid {dm with state := Sht15State.READING_HUMID} with state := Sht15State.READING_TEMP}).checksum_ok) = false →
      cmdsOf (sht15_update_measurements m dm).2.2
        = [SHT15_MEASURE_RH, SHT15_MEASURE_TEMP] ∧
      (sht15_update_measurements m dm).1 = 0) := by
  refine ⟨?_, ?_, ?_, ?_⟩
  · intro h1 h2
    unfold sht15_update_status
    rw [if_neg]
    simp [h1, h2]
  · intro hs hR hg
    rw [update_status_ok e d hs hR hg]
    simp [cmdsOf]
  · intro h1 h2
    unfold sht15_update_measurements
    rw [if_neg]
    simp [h1, h2]
  · intro hs hA1 hC1 hok1 hA2 hC2 hok2
    unfold sht15_update_measurements
    rw [if_pos hs]
    simp [measurement_ok m.humid {dm with state := Sht15State.READING_HUMID} SHT15_MEASURE_RH 160 hA1 hC1 hok1,
      measurement_ok m.temp {sht15_bh_read_data m.humid {dm with state := Sht15State.READING_HUMID} with state := Sht15State.READING_TEMP} SHT15_MEASURE_TEMP 400 hA2 hC2 hok2,
      cmdsOf]

/-- Witness for claim C5 at concrete fresh and stale accesses. -/
theorem C5_staleness_witness :
    sht15_update_status c5FreshEnv c5Fresh = (0, c5Fresh, []) ∧
    (c5Stale.status_valid = false ∧
      cmdsOf (sht15_update_status c5StaleEnv c5Stale).2.2
        = [SHT15_READ_STATUS]) ∧
    sht15_update_measurements c5FreshMEnv c5Fresh = (0, c5Fresh, []) ∧
    (c5Stale.measurements_valid = false ∧
      cmdsOf (sht15_update_measurements c5StaleMEnv c5Stale).2.2
        = [SHT15_MEASURE_RH, SHT15_MEASURE_TEMP]) := by
  refine ⟨?_, ⟨by decide, ?_⟩, ?_, ⟨by decide, ?_⟩⟩
  · exact (C5_staleness c5FreshEnv c5FreshMEnv c5Fresh c5Fresh).1
      (by decide) (by decide)
  · exact ((C5_staleness c5StaleEnv c5StaleMEnv c5Stale c5Stale).2.1
      (by decide) (by decide) (by decide)).1
  · exact (C5_staleness c5FreshEnv c5FreshMEnv c5Fresh c5Fresh).2.2.1
      (by decide) (by decide)
  · exact ((C5_staleness c5StaleEnv c5StaleMEnv c5Stale c5Stale).2.2.2
      (by decide) (by decide) (by decide) (by decide) (by decide)
      (by decide) (by decide)).1

/-- Claim C8: a measurement refresh (stale or invalid cache) issues the
humidity command before the temperature command, with a 160 ms wait
bound for humidity and a 400 ms wait bound for temperature, and the
cache is marked valid with the fresh timestamp exactly when both
measurements succeed: a humidity or temperature failure leaves the
validity flag and the timestamp untouched. -/
theorem C8_measurement_cycle (m : MeasurementsEnv) (dm : Sht15Data)
    (hs : HZ + dm.last_measurement < m.jiffies ∨
      dm.measurements_valid = false) :
    (m.humid.ackCmd = true → m.humid.completes = true →
      ((sht15_bh_read_data m.humid {dm with state := Sht15State.READING_HUMID}).checksumming && !(sht15_bh_read_data m.humid {dm with state := Sht15State.READING_HUMID}).checksum_ok) = false →
      m.temp.ackCmd = true → m.temp.completes = true →
      ((sht15_bh_read_data m.temp {sht15_bh_read_data m.humid {dm with state := Sht15State.READING_HUMID} with state := Sht15State.READING_TEMP}).checksumming && !(sht15_bh_read_data m.temp {sht15_bh_read_data m.humid {dm with state := Sht15State.READING_HUMID} with state := Sht15State.READING_TEMP}).checksum_ok) = false →
      (sht15_update_measurements m dm).2.2 =
        [Ev.cmd SHT15_MEASURE_RH, Ev.waitMs 160,
          Ev.cmd SHT15_MEASURE_TEMP, Ev.waitMs 400] ∧
      (sht15_update_measurements m dm).1 = 0 ∧
      (sht15_update_measurements m dm).2.1.measurements_valid = true ∧
      (sht15_update_measurements m dm).2.1.last_measurement = m.jiffies) ∧
    (m.humid.ackCmd = true → m.humid.completes = false →
      (sht15_update_measurements m dm).1 = -etimeErr ∧
      (sht15_update_measurements m dm).2.1.measurements_valid
        = dm.measurements_valid ∧
      (sht15_update_measurements m dm).2.1.last_measurement
        = dm.last_measurement ∧
      (sht15_update_measurements m dm).2.2 =
        [Ev.cmd SHT15_MEASURE_RH, Ev.waitMs 160, Ev.connReset]) ∧
    (m.humid.ackCmd = true → m.humid.completes = true →
      ((sht15_bh_read_data m.humid {dm with state := Sht15State.READING_HUMID}).checksumming && !(sht15_bh_read_data m.humid {dm with state := Sht15State.READING_HUMID}).checksum_ok) = false →
      m.temp.ackCmd = true → m.temp.completes = false →
      (sht15_update_measurements m dm).1 = -etimeErr ∧
      (sht15_update_measurements m dm).2.1.measurements_valid
        = dm.measurements_valid ∧
      (sht15_update_measurements m dm).2.1.last_measurement
        = dm.last_measurement ∧
      (sht15_update_measurements m dm).2.2 =
        [Ev.cmd SHT15_MEASURE_RH, Ev.waitMs 160,
          Ev.cmd SHT15_MEASURE_TEMP, Ev.waitMs 400, Ev.connReset]) := by
  refine ⟨?_, ?_, ?_⟩
  · intro hA1 hC1 hok1 hA2 hC2 hok2
    unfold sht15_update_measurements
    rw [if_pos hs]
    simp [measurement_ok m.humid {dm with state := Sht15State.READING_HUMID} SHT15_MEASURE_RH 160 hA1 hC1 hok1,
      measurement_ok m.temp {sht15_bh_read_data m.humid {dm with state := Sht15State.READING_HUMID} with state := Sht15State.READING_TEMP} SHT15_MEASURE_TEMP 400 hA2 hC2 hok2]
  · intro hA1 hC1
    unfold sht15_update_measurements
    rw [if_pos hs]
    simp [measurement_timeout m.humid {dm with state := Sht15State.READING_HUMID} SHT15_MEASURE_RH 160 hA1 hC1, etimeErr]
  · intro hA1 hC1 hok1 hA2 hC2
    unfold sht15_update_measurements
    rw [if_pos hs]
    simp [measurement_ok m.humid {dm with state := Sht15State.READING_HUMID} SHT15_MEASURE_RH 160 hA1 hC1 hok1,
      measurement_timeout m.temp {sht15_bh_read_data m.humid {dm with state := Sht15State.READING_HUMID} with state := Sht15State.READING_TEMP} SHT15_MEASURE_TEMP 400 hA2 hC2,
      etimeErr]
    simp [(bh_fields m.humid {dm with state := Sht15State.READING_HUMID}).2.2.2.1,
      (bh_fields m.humid {dm with state := Sht15State.READING_HUMID}).2.2.2.2]

/-- Witness for claim C8 at concrete refresh runs. -/
theorem C8_measurement_cycle_witness :
    (HZ + c8Data.last_measurement < c8EnvOK.jiffies ∨
      c8Data.measurements_valid = false) ∧
    (sht15_update_measurements c8EnvOK c8Data).2.2 =
      [Ev.cmd SHT15_MEASURE_RH, Ev.waitMs 160,
        Ev.cmd SHT15_MEASURE_TEMP, Ev.waitMs 400] ∧
    (sht15_update_measurements c8EnvHumidTimeout c8Data).1 = -etimeErr ∧
    (sht15_update_measurements c8EnvTempTimeout c8Data).1 = -etimeErr ∧
    (sht15_update_measurements c8EnvTempTimeout c8Data).2.1.measurements_valid
      = c8Data.measurements_valid := by
  refine ⟨by decide, ?_, ?_, ?_, ?_⟩
  · exact ((C8_measurement_cycle c8EnvOK c8Data (by decide)).1
      (by decide) (by decide) (by decide) (by decide) (by decide)
      (by decide)).1
  · exact ((C8_measurement_cycle c8EnvHumidTimeout c8Data (by decide)).2.1
      (by decide) (by decide)).1
  · exact ((C8_measurement_cycle c8EnvTempTimeout c8Data (by decide)).2.2
      (by decide) (by decide) (by decide) (by decide) (by decide)).1
  · exact ((C8_measurement_cycle c8EnvTempTimeout c8Data (by decide)).2.2
      (by decide) (by decide) (by decide) (by decide) (by decide)).2.1

